import Mathlib

/-!
Verification of the shoulder-kinematics validation-and-conversion pipeline.

The development shallowly embeds two source files:

* `src/shoulder/row_data.py` — the `RowData` row validator and angle-conversion
  dispatcher (`check_segments_correction_validity`,
  `set_rotation_correction_callback` and the `_check_segment_has_*` helpers);
* `src/spartacus/src/frame_reader.py` — the vector / frame geometry layer
  (`StartEndVector`, `CrossedVector`, `Frame` and the `parse_*` functions).

Collaborating modules that the repository's staged sources only import
(`shoulder/utils.py` with `BiomechCoordinateSystem` and `Joint`,
`shoulder/checks.py`, `shoulder/angle_conversion_callbacks.py`,
`spartacus/src/enums_biomech.py`, `spartacus/src/biomech_constant.py`) are
modelled from the specification where a definition of theirs is needed; each
such definition carries a doc comment starting `Modelled from the spec:`.
Python run-time state (fields initialised to `None` and later overwritten with
booleans) is embedded as `Option Bool`, Python's truthy `and` as `pyAnd`, and
a raising method as an `Except` value that carries the mutated object, since in
Python field assignments made before a `raise` persist on the object.
-/

/-- Modelled from the spec: the closed segment set of `shoulder/enums.py`
(absent from the staged sources); spec §3 names the four shoulder segments. -/
inductive Segment where
  | scapula
  | thorax
  | clavicle
  | humerus
deriving DecidableEq, Repr

/-- Modelled from the spec: the closed correction-tag set of
`shoulder/enums.py` (absent from the staged sources); spec §3 lists the tags
"rotate to ISB", "ISB-like rotation" and the two Kolz corrections, which
`row_data.py` names `TO_ISB_ROTATION`, `TO_ISB_LIKE_ROTATION`,
`SCAPULA_KOLZ_AC_TO_PA_ROTATION` and `SCAPULA_KOLZ_GLENOID_TO_PA_ROTATION`. -/
inductive Correction where
  | toIsbRotation
  | toIsbLikeRotation
  | scapulaKolzAcToPaRotation
  | scapulaKolzGlenoidToPaRotation
deriving DecidableEq, Repr

/-- Modelled from the spec: the classification wrapper
`BiomechCoordinateSystem` of `shoulder/utils.py` (absent from the staged
sources). Spec §4.2: `is_isb_oriented` is the three axis-direction checks,
`is_origin_on_an_isb_axis` a per-segment table of acceptable origins, and
full compliance requires both the orientation and the canonical origin.
`row_data.py` consumes only the three boolean queries, so the wrapper is
embedded as their outcomes. -/
structure BiomechSys where
  isbOriented : Bool
  originIsb : Bool
  originOnIsbAxis : Bool
deriving DecidableEq, Repr

/-- Modelled from the spec: `BiomechCoordinateSystem.is_isb` (spec §4.2 —
fully compliant means ISB-oriented with the canonical ISB origin). -/
def BiomechSys.isIsb (b : BiomechSys) : Bool :=
  b.isbOriented && b.originIsb

/-- An Euler sequence as `row_data.py` handles it: a three-letter axis-order
string (`Joint.euler_sequence` may also be absent, hence `Option` at use
sites). -/
abbrev EulerSeq := String

/-- Modelled from the spec: the conversion callbacks produced by
`shoulder/angle_conversion_callbacks.py` (absent from the staged sources).
Spec §4.4: a callback is either a per-axis sign-factor map
(`get_angle_conversion_callback_from_tuple`), a sequence-to-sequence
re-derivation (`get_angle_conversion_callback_from_sequence`), or the combined
to-ISB rebuild parameterised by both frames
(`get_angle_conversion_callback_to_isb_with_sequence`). The dispatcher in
`row_data.py` only selects and stores one, so the three factories are embedded
as constructors recording their arguments. -/
inductive RotationCallback where
  | fromTuple (factors : ℚ × ℚ × ℚ)
  | fromSequence (previousSequence : Option EulerSeq) (newSequence : EulerSeq)
  | toIsbWithSequence (previousSequence : Option EulerSeq) (newSequence : EulerSeq)
      (bsysChild bsysParent : BiomechSys)
deriving DecidableEq, Repr

/-- Modelled from the spec: applying a sign-factor callback (spec glossary —
"Sign-factor conversion: mapping angles between two Euler sequences by
multiplying each angle by ±1"; spec §4.4 strategy 1 stores the factors
`(1,1,1)`). -/
def applySignFactors (factors : ℚ × ℚ × ℚ) (angles : ℚ × ℚ × ℚ) : ℚ × ℚ × ℚ :=
  (factors.1 * angles.1, factors.2.1 * angles.2.1, factors.2.2 * angles.2.2)

/-- The fields of a `RowData` object (`row_data.py` `__init__`, lines 40-79)
that the correction-validity and callback-resolution methods read or write,
plus the outcomes of the collaborator calls those methods make.

Input-like fields:
* `parentBsys`/`childBsys`, `parentSegment`/`childSegment` — set by
  `set_segments` from the row;
* `parentCorrection`/`childCorrection` — the value `extract_corrections`
  returns for each side (`None`, or the parsed list of tags);
* `eulerSequence`, `isbSequence`, `jointSequenceIsb`,
  `jointConvertibleThroughFactors` — the owned `Joint`'s declared sequence,
  its canonical ISB sequence, and its two boolean queries
  `is_joint_sequence_isb()` / `is_sequence_convertible_through_factors()`
  (the `Joint` class lives in `shoulder/utils.py`, absent from the staged
  sources; modelled from spec §3 as the joint's resolved answers);
* `sameOrientation` — the outcome of `checks.check_same_orientation`
  (absent from the staged sources; spec §4.4.3a calls it the matching
  relative-orientation precondition);
* `matrixConvertibleThroughFactors`, `matrixSignFactors` — the pair returned
  by `convert_rotation_matrix_from_one_coordinate_system_to_another`
  (absent from the staged sources; spec §4.4.3b: the frame-level sign-factor
  derivation and its factors).

Mutable fields (all `None` after `__init__`):
`hasRotationData`, `hasTranslationData`, the four per-side usability flags,
the two definition-risk flags, `usableRotationData`, `usableTranslationData`
and the two callbacks. -/
structure RowState where
  parentBsys : BiomechSys
  childBsys : BiomechSys
  parentSegment : Segment
  childSegment : Segment
  parentCorrection : Option (List Correction)
  childCorrection : Option (List Correction)
  eulerSequence : Option EulerSeq
  isbSequence : EulerSeq
  jointSequenceIsb : Bool
  jointConvertibleThroughFactors : Bool
  sameOrientation : Bool
  matrixConvertibleThroughFactors : Bool
  matrixSignFactors : ℚ × ℚ × ℚ
  hasRotationData : Option Bool := none
  hasTranslationData : Option Bool := none
  parentUsableRot : Option Bool := none
  childUsableRot : Option Bool := none
  parentUsableTrans : Option Bool := none
  childUsableTrans : Option Bool := none
  parentDefinitionRisk : Option Bool := none
  childDefinitionRisk : Option Bool := none
  usableRotationData : Option Bool := none
  usableTranslationData : Option Bool := none
  rotationCorrectionCallback : Option RotationCallback := none
  translationCorrectionCallback : Option Unit := none
deriving DecidableEq, Repr

/-- Python's `a and b` on this code's flag values (`None`, `True`, `False`):
a falsy left operand (`None` or `False`) is returned unchanged, a truthy one
yields the right operand. -/
def pyAnd (a b : Option Bool) : Option Bool :=
  match a with
  | none => none
  | some false => some false
  | some true => b

/-- `RowData._check_segment_has_no_correction` (row_data.py lines 250-261):
true exactly when the correction cell is `None`. -/
def hasNoCorrection (correction : Option (List Correction)) : Bool :=
  correction.isNone

/-- `RowData._check_segment_has_kolz_correction` (row_data.py lines 263-281):
a `None` cell counts as the empty list; true when one of the two Kolz
corrections is declared. -/
def hasKolzCorrection (correction : Option (List Correction)) : Bool :=
  let cs := correction.getD []
  cs.contains Correction.scapulaKolzAcToPaRotation
    || cs.contains Correction.scapulaKolzGlenoidToPaRotation

/-- `RowData._check_segment_has_to_isb_correction` (row_data.py lines
283-295): true when `TO_ISB_ROTATION` is declared. -/
def hasToIsbCorrection (correction : Option (List Correction)) : Bool :=
  (correction.getD []).contains Correction.toIsbRotation

/-- `RowData._check_segment_has_to_isb_like_correction` (row_data.py lines
297-310): true when `TO_ISB_LIKE_ROTATION` is declared. -/
def hasToIsbLikeCorrection (correction : Option (List Correction)) : Bool :=
  (correction.getD []).contains Correction.toIsbLikeRotation

/-- The running state of `check_segments_correction_validity`: the object
together with the local variables `parent_output` and `child_output`
(initialised `True` at lines 326-327). -/
abbrev CheckSt := RowState × Bool × Bool

/-- row_data.py lines 332-349: if both segments are fully ISB, both sides must
declare no correction; all four per-side usability flags are set from that
check. -/
def blockBothIsb : CheckSt → CheckSt
  | (rd, po, co) =>
    if rd.parentBsys.isIsb && rd.childBsys.isIsb then
      let p := hasNoCorrection rd.parentCorrection
      let c := hasNoCorrection rd.childCorrection
      ({ rd with
          parentUsableRot := some p
          childUsableRot := some c
          parentUsableTrans := some p
          childUsableTrans := some c }, p, c)
    else (rd, po, co)

/-- row_data.py lines 353-356: parent ISB-oriented with origin on an ISB
axis — no correction expected; translation marked unusable. -/
def blockParentOrientedOnAxis : CheckSt → CheckSt
  | (rd, _po, co) =>
    if rd.parentBsys.isbOriented && rd.parentBsys.originOnIsbAxis then
      let p := hasNoCorrection rd.parentCorrection
      ({ rd with parentUsableRot := some p, parentUsableTrans := some false }, p, co)
    else (rd, _po, co)

/-- row_data.py lines 358-361: the child-side analogue of the previous
block. -/
def blockChildOrientedOnAxis : CheckSt → CheckSt
  | (rd, po, co) =>
    if rd.childBsys.isbOriented && rd.childBsys.originOnIsbAxis then
      let c := hasNoCorrection rd.childCorrection
      ({ rd with childUsableRot := some c, childUsableTrans := some false }, po, c)
    else (rd, po, co)

/-- row_data.py lines 363-371: parent ISB-oriented, origin NOT on an ISB
axis. A scapula must declare a Kolz correction; any other segment is only
flagged a definition risk, with `parent_output` left at its current value.
The source's inner `if` mutates `parent_output` in one branch and the risk
flag in the other; the embedding expresses the same two outcomes as
conditional values feeding one state update. -/
def blockParentOrientedOffAxis : CheckSt → CheckSt
  | (rd, po, co) =>
    if rd.parentBsys.isbOriented && !rd.parentBsys.originOnIsbAxis then
      let p := if rd.parentSegment = Segment.scapula then
                 hasKolzCorrection rd.parentCorrection
               else po
      let risk := if rd.parentSegment = Segment.scapula then
                    rd.parentDefinitionRisk
                  else some true
      ({ rd with
          parentDefinitionRisk := risk
          parentUsableRot := some p
          parentUsableTrans := some false }, p, co)
    else (rd, po, co)

/-- row_data.py lines 373-379: child ISB-oriented, origin NOT on an ISB axis.
The source stores the scapula's Kolz-check result into `parent_output`
(line 375) and then assigns the untouched `child_output` to the child's
rotation flag (line 378); the embedding reproduces that assignment slip
(`p` updates the parent output, `childUsableRot` gets the stale `co`). -/
def blockChildOrientedOffAxis : CheckSt → CheckSt
  | (rd, po, co) =>
    if rd.childBsys.isbOriented && !rd.childBsys.originOnIsbAxis then
      let p := if rd.childSegment = Segment.scapula then
                 hasKolzCorrection rd.childCorrection
               else po
      let risk := if rd.childSegment = Segment.scapula then
                    rd.childDefinitionRisk
                  else some true
      ({ rd with
          childDefinitionRisk := risk
          childUsableRot := some co
          childUsableTrans := some false }, p, co)
    else (rd, po, co)

/-- row_data.py lines 382-389: parent NOT ISB-oriented, origin on an ISB
axis — `TO_ISB_ROTATION` expected; for a scapula the requirement is
overwritten by the Kolz check. -/
def blockParentNotOrientedOnAxis : CheckSt → CheckSt
  | (rd, po, co) =>
    if !rd.parentBsys.isbOriented && rd.parentBsys.originOnIsbAxis then
      let p0 := hasToIsbCorrection rd.parentCorrection
      let p := if rd.parentSegment = Segment.scapula then
                 hasKolzCorrection rd.parentCorrection
               else p0
      ({ rd with parentUsableRot := some p, parentUsableTrans := some false }, p, co)
    else (rd, po, co)

/-- row_data.py lines 391-396: the child-side analogue of the previous
block. -/
def blockChildNotOrientedOnAxis : CheckSt → CheckSt
  | (rd, po, co) =>
    if !rd.childBsys.isbOriented && rd.childBsys.originOnIsbAxis then
      let c0 := hasToIsbCorrection rd.childCorrection
      let c := if rd.childSegment = Segment.scapula then
                 hasKolzCorrection rd.childCorrection
               else c0
      ({ rd with childUsableRot := some c, childUsableTrans := some false }, po, c)
    else (rd, po, co)

/-- row_data.py lines 398-411: parent NOT ISB-oriented, origin NOT on an ISB
axis — `TO_ISB_LIKE_ROTATION` expected (overwritten by the Kolz check for a
scapula), translation unusable, definition risk set. -/
def blockParentNotOrientedOffAxis : CheckSt → CheckSt
  | (rd, po, co) =>
    if !rd.parentBsys.isbOriented && !rd.parentBsys.originOnIsbAxis then
      let p0 := hasToIsbLikeCorrection rd.parentCorrection
      let p := if rd.parentSegment = Segment.scapula then
                 hasKolzCorrection rd.parentCorrection
               else p0
      ({ rd with
          parentUsableRot := some p
          parentUsableTrans := some false
          parentDefinitionRisk := some true }, p, co)
    else (rd, po, co)

/-- row_data.py lines 413-421: the child-side analogue of the previous
block. -/
def blockChildNotOrientedOffAxis : CheckSt → CheckSt
  | (rd, po, co) =>
    if !rd.childBsys.isbOriented && !rd.childBsys.originOnIsbAxis then
      let c0 := hasToIsbLikeCorrection rd.childCorrection
      let c := if rd.childSegment = Segment.scapula then
                 hasKolzCorrection rd.childCorrection
               else c0
      ({ rd with
          childUsableRot := some c
          childUsableTrans := some false
          childDefinitionRisk := some true }, po, c)
    else (rd, po, co)

/-- The eight `if` blocks of `check_segments_correction_validity`
(row_data.py lines 332-421) in source order. -/
def checkSegmentsCorrectionBlocks (rd : RowState) : RowState :=
  (blockChildNotOrientedOffAxis
    (blockParentNotOrientedOffAxis
      (blockChildNotOrientedOnAxis
        (blockParentNotOrientedOnAxis
          (blockChildOrientedOffAxis
            (blockParentOrientedOffAxis
              (blockChildOrientedOnAxis
                (blockParentOrientedOnAxis
                  (blockBothIsb (rd, true, true)))))))))).1

/-- `RowData.check_segments_correction_validity` (row_data.py lines 312-435):
runs the eight classification blocks, then combines the per-side flags
(lines 423-429, child operand first as in the source) and returns the pair
`(usable_rotation_data, usable_translation_data)`. -/
def checkSegmentsCorrectionValidity (rd : RowState) :
    RowState × Option Bool × Option Bool :=
  let rd1 := checkSegmentsCorrectionBlocks rd
  let rd2 := { rd1 with
      usableRotationData := pyAnd rd1.childUsableRot rd1.parentUsableRot
      usableTranslationData := pyAnd rd1.childUsableTrans rd1.parentUsableTrans }
  (rd2, rd2.usableRotationData, rd2.usableTranslationData)

/-- The exceptions `set_rotation_correction_callback` can raise: the explicit
`NotImplementedError` of the failed same-orientation precondition (row_data.py
line 463) and the one of the unreachable final `else` (line 505). -/
inductive RowError where
  | notImplementedSameOrientation
  | notImplementedCheckConversion
deriving DecidableEq, Repr

/-- `RowData.set_rotation_correction_callback` (row_data.py lines 437-505).
An error value carries the object state at the moment of the raise, because
the assignments made before a Python `raise` persist on the object. -/
def setRotationCorrectionCallback (rd : RowState) :
    Except (RowError × RowState) RowState :=
  let parentIsb := rd.parentBsys.isbOriented
  let childIsb := rd.childBsys.isbOriented
  if parentIsb && childIsb then
    if rd.jointSequenceIsb then
      .ok { rd with
        usableRotationData := some true
        rotationCorrectionCallback := some (.fromTuple (1, 1, 1)) }
    else
      .ok { rd with
        usableRotationData := some true
        rotationCorrectionCallback :=
          some (.fromSequence rd.eulerSequence rd.isbSequence) }
  else if !parentIsb || !childIsb then
    if !rd.sameOrientation then
      .error (RowError.notImplementedSameOrientation,
        { rd with
            usableRotationData := some false
            rotationCorrectionCallback := none })
    else
      if rd.jointConvertibleThroughFactors && rd.matrixConvertibleThroughFactors then
        .ok { rd with
          usableRotationData := some true
          rotationCorrectionCallback := some (.fromTuple rd.matrixSignFactors) }
      else
        .ok { rd with
          usableRotationData := some true
          rotationCorrectionCallback :=
            some (.toIsbWithSequence rd.eulerSequence rd.isbSequence
              rd.childBsys rd.parentBsys) }
  else .error (RowError.notImplementedCheckConversion, rd)

/-- Modelled from the spec: `AnatomicalLandmark` of
`spartacus/src/enums_biomech.py` (absent from the staged sources). Spec §3:
"an enumerated named skeletal point ... Immutable; looked up by name"; the
embedding keeps the name. -/
structure Landmark where
  name : String
deriving DecidableEq, Repr

/-- Modelled from the spec: `AnatomicalLandmark.from_string` — the lookup of a
landmark by its textual name (total here; the name table is not among the
staged sources). -/
def Landmark.ofString (s : String) : Landmark := ⟨s⟩

/-- A vector expression of `frame_reader.py`: `StartEndVector` (two landmarks,
lines 28-48), `CrossedVector` (two sub-vectors, lines 51-67), or the Python
`None` that `Frame.from_twice_crossed` passes into an axis slot (line 144). -/
inductive AxisVec where
  | startEnd (s e : Landmark)
  | crossed (a b : AxisVec)
  | null
deriving DecidableEq, Repr

/-- `landmarks` of a vector expression (frame_reader.py lines 42-44 and
62-63): the start/end pair, or the concatenation of the operands' landmarks.
`none` embeds the `AttributeError` Python raises when the expression holds
`None`. -/
def AxisVec.landmarksOpt : AxisVec → Option (List Landmark)
  | .startEnd s e => some [s, e]
  | .crossed a b => do pure ((← a.landmarksOpt) ++ (← b.landmarksOpt))
  | .null => none

/-- A 3-D vector with exact rational components. -/
abbrev Vec3 := ℚ × ℚ × ℚ

/-- Componentwise difference. -/
def vsub (a b : Vec3) : Vec3 := (a.1 - b.1, a.2.1 - b.2.1, a.2.2 - b.2.2)

/-- The cross product `a × b`. -/
def vcross (a b : Vec3) : Vec3 :=
  (a.2.1 * b.2.2 - a.2.2 * b.2.1,
   a.2.2 * b.1 - a.1 * b.2.2,
   a.1 * b.2.1 - a.2.1 * b.1)

/-- The squared Euclidean norm (exact, so "zero norm" is decidable). -/
def normSq (v : Vec3) : ℚ := v.1 * v.1 + v.2.1 * v.2.1 + v.2.2 * v.2.2

/-- The exceptions of the frame-reading layer: the `ValueError`s of
`frame_reader.py` (invalid axis combination, line 125; invalid `vec(...)`
format, line 309; a non-crossed vector where a side was requested, line 273;
an unpack of `split("^")` into two names that fails, line 282), the
`AttributeError` of operating on a `None` axis, and the `GeometryError` the
spec's §4.1/§7 posit for a degenerate vector (no code of the staged sources
raises it; the constructor exists so that its absence is statable). -/
inductive PyError where
  | invalidAxisCombination
  | invalidInputFormat
  | invalidSide
  | unpackError
  | attributeError
  | geometryError
deriving DecidableEq, Repr

/-- Modelled from the spec: the read-only reference tables of
`spartacus/src/biomech_constant.py` and `enums_biomech.py` (absent from the
staged sources): the fixed reference-pose position of each landmark
(`get_constant`), the per-segment ISB landmark set
(`AnatomicalLandmark.<Segment>.isb()`) and the per-segment ISB origin
(`AnatomicalLandmark.<Segment>.origin_isb`). Spec §4.2 calls these the
per-segment ISB reference table; the development is parametric in them. -/
structure BiomechTables where
  getC : Landmark → Vec3
  isbLandmarks : Segment → List Landmark
  isbOrigin : Segment → Landmark

/-- `compute_default_vector` (frame_reader.py lines 46-48 and 65-67): the
landmark difference `end - start`, or the cross product of the operands'
default vectors. The source divides each result by `np.linalg.norm` with no
zero check; the embedding keeps the pre-normalisation vector, since dividing
by a positive scalar changes neither the principal direction nor whether the
vector is zero, and at zero norm numpy divides (emitting non-finite values)
rather than raising. A `None` operand gives the `AttributeError` the Python
attribute access would raise; no path produces `PyError.geometryError`. -/
def computeDefaultVector (T : BiomechTables) : AxisVec → Except PyError Vec3
  | .startEnd s e => .ok (vsub (T.getC e) (T.getC s))
  | .crossed a b =>
    match computeDefaultVector T a with
    | .error e => .error e
    | .ok va =>
      match computeDefaultVector T b with
      | .error e => .error e
      | .ok vb => .ok (vcross va vb)
  | .null => .error PyError.attributeError

/-- The six signed principal axes (`CartesianAxis` of `enums_biomech.py`). -/
inductive CartesianAxis where
  | plusX
  | plusY
  | plusZ
  | minusX
  | minusY
  | minusZ
deriving DecidableEq, Repr

/-- Modelled from the spec: `CartesianAxis.principal_axis` of
`enums_biomech.py` (absent from the staged sources). Spec §4.1: the signed
axis whose basis vector has the largest absolute component, ties resolved by
first match in the fixed X, Y, Z precedence order. -/
def principalAxis (v : Vec3) : CartesianAxis :=
  let ax := |v.1|
  let ay := |v.2.1|
  let az := |v.2.2|
  if ax ≥ ay ∧ ax ≥ az then
    if v.1 ≥ 0 then CartesianAxis.plusX else CartesianAxis.minusX
  else if ay ≥ az then
    if v.2.1 ≥ 0 then CartesianAxis.plusY else CartesianAxis.minusY
  else
    if v.2.2 ≥ 0 then CartesianAxis.plusZ else CartesianAxis.minusZ

/-- `VectorBase.principal_direction` (frame_reader.py lines 19-21): the
principal axis of the computed default vector; `none` when the computation
raised. -/
def principalDirection (T : BiomechTables) (v : AxisVec) : Option CartesianAxis :=
  (computeDefaultVector T v).toOption.map principalAxis

/-- `Frame` (frame_reader.py lines 70-80): three axis expressions, an origin
landmark and the owning segment. Axis slots hold `AxisVec.null` when the
source flowed Python `None` into them. -/
structure Frame where
  x_axis : AxisVec
  y_axis : AxisVec
  z_axis : AxisVec
  origin : Landmark
  segment : Segment
deriving DecidableEq, Repr

/-- `Frame.from_xy` (line 87-88): z is the cross product of x and y. -/
def Frame.fromXy (x y : AxisVec) (origin : Landmark) (segment : Segment) : Frame :=
  ⟨x, y, .crossed x y, origin, segment⟩

/-- `Frame.from_xz` (line 91-92): y is the cross product of z and x. -/
def Frame.fromXz (x z : AxisVec) (origin : Landmark) (segment : Segment) : Frame :=
  ⟨x, .crossed z x, z, origin, segment⟩

/-- `Frame.from_yz` (line 95-96): x is the cross product of y and z. -/
def Frame.fromYz (y z : AxisVec) (origin : Landmark) (segment : Segment) : Frame :=
  ⟨.crossed y z, y, z, origin, segment⟩

/-- `Frame.from_z_crossed_twice` (lines 99-101). -/
def Frame.fromZCrossedTwice (y z : AxisVec) (origin : Landmark) (segment : Segment) :
    Frame :=
  Frame.fromXz (.crossed y z) z origin segment

/-- `Frame.from_y_crossed_twice` (lines 104-106): builds `z = x × y` and then
delegates to `from_yz`; callable — as `from_twice_crossed` line 144 does —
with `None` in both axis arguments. -/
def Frame.fromYCrossedTwice (x y : AxisVec) (origin : Landmark) (segment : Segment) :
    Frame :=
  Frame.fromYz y (.crossed x y) origin segment

/-- `Frame.from_x_crossed_twice` (lines 109-111). -/
def Frame.fromXCrossedTwice (x z : AxisVec) (origin : Landmark) (segment : Segment) :
    Frame :=
  Frame.fromXy x (.crossed z x) origin segment

/-- Whether `pat` is an initial run of `text`, character for character. -/
def charsLeadWith : List Char → List Char → Bool
  | _, [] => true
  | [], _ :: _ => false
  | a :: text, b :: pat => a == b && charsLeadWith text pat

/-- Whether `pat` is a final run of `text`. -/
def charsEndWith (text pat : List Char) : Bool :=
  charsLeadWith text.reverse pat.reverse

/-- Whether `pat` occurs contiguously inside `text`. -/
def charsContainSeq : List Char → List Char → Bool
  | [], pat => charsLeadWith [] pat
  | c :: rest, pat => charsLeadWith (c :: rest) pat || charsContainSeq rest pat

/-- Whether the string `t` occurs inside `s` (Python's `t in s`). -/
def substrContains (s t : String) : Bool :=
  charsContainSeq s.data t.data

/-- Python's `str.split(sep)` for a one-character separator: `"a^b^c"` gives
three parts, a string without the separator gives itself as the single
part. -/
def splitOnChar (sep : Char) : List Char → List (List Char)
  | [] => [[]]
  | c :: rest =>
    let r := splitOnChar sep rest
    if c = sep then [] :: r
    else match r with
      | h :: t => (c :: h) :: t
      | [] => [[c]]

/-- Which operand of a crossed token a parse asks for (`side` keyword of
`parse_axis`, frame_reader.py line 263: `"all"`, `"first"` or `"second"`). -/
inductive Side where
  | all
  | first
  | second
deriving DecidableEq, Repr

/-- `parse_start_end_vector` (frame_reader.py lines 303-313): checks the
`vec(XXX>YYY)` shape, raising the invalid-format `ValueError` otherwise, then
splits the inner text on `>`. (Given the shape check the split always yields
two parts; the unreachable fallback keeps the function total.) -/
def parseStartEndVector (s : String) : Except PyError (String × String) :=
  if charsLeadWith s.data "vec(".data && charsEndWith s.data ")".data
      && substrContains s ">" then
    match splitOnChar '>' ((s.data.drop 4).dropLast) with
    | a :: b :: _ => .ok (String.mk a, String.mk b)
    | _ => .error PyError.invalidInputFormat
  else .error PyError.invalidInputFormat

/-- `parse_vector` (lines 296-300): a `vec(start>end)` token as a
`StartEndVector`. -/
def parseVector (s : String) : Except PyError AxisVec := do
  let (a, b) ← parseStartEndVector s
  .ok (AxisVec.startEnd (Landmark.ofString a) (Landmark.ofString b))

/-- `parse_crossed_vector` (lines 281-293): splits on `^` into exactly two
operand tokens (Python's two-name unpack raises `ValueError` otherwise), then
parses both, or just the requested side. -/
def parseCrossedVector (s : String) (side : Side) : Except PyError AxisVec :=
  match splitOnChar '^' s.data with
  | [a, b] =>
    match side with
    | .all => do
        let v1 ← parseVector (String.mk a)
        let v2 ← parseVector (String.mk b)
        .ok (AxisVec.crossed v1 v2)
    | .first => parseVector (String.mk a)
    | .second => parseVector (String.mk b)
  | _ => .error PyError.unpackError

/-- `parse_axis` (lines 263-278): a token containing `^` is parsed as a
crossed vector; otherwise requesting an operand side is a `ValueError` and the
token is parsed as a plain vector. -/
def parseAxis (s : String) (side : Side) : Except PyError AxisVec :=
  if substrContains s "^" then parseCrossedVector s side
  else if side = Side.first ∨ side = Side.second then .error PyError.invalidSide
  else parseVector s

/-- `Frame.from_once_crossed` (frame_reader.py lines 113-127): exactly one
axis token is one of the literal cross-product markers `"y^z"`, `"z^x"`,
`"x^y"`; any other combination raises the invalid-axis-combination
`ValueError`. -/
def Frame.fromOnceCrossed (x y z origin : String) (segment : Segment) :
    Except PyError Frame :=
  if x = "y^z" then do
    let ya ← parseAxis y Side.all
    let za ← parseAxis z Side.all
    .ok (Frame.fromYz ya za (Landmark.ofString origin) segment)
  else if y = "z^x" then do
    let xa ← parseAxis x Side.all
    let za ← parseAxis z Side.all
    .ok (Frame.fromXz xa za (Landmark.ofString origin) segment)
  else if z = "x^y" then do
    let xa ← parseAxis x Side.all
    let ya ← parseAxis y Side.all
    .ok (Frame.fromXy xa ya (Landmark.ofString origin) segment)
  else .error PyError.invalidAxisCombination

/-- `Frame.from_twice_crossed` (frame_reader.py lines 129-152): substring
detection of which axis is crossed twice, tried in the order x, y, z. The
y branch (line 144) passes `None, None` into `from_y_crossed_twice`; the
fall-through when no pattern matches is Python's implicit `None` return. -/
def Frame.fromTwiceCrossed (x y z origin : String) (segment : Segment) :
    Except PyError (Option Frame) :=
  let isXTwice := substrContains z "x^" && substrContains y "^x"
  let isYTwice := substrContains x "y^" && substrContains z "^y"
  let isZTwice := substrContains y "z^" && substrContains x "^z"
  if isXTwice then do
    let xa ← parseAxis x Side.all
    let za ← parseAxis y Side.first
    .ok (some (Frame.fromXCrossedTwice xa za (Landmark.ofString origin) segment))
  else if isYTwice then
    .ok (some (Frame.fromYCrossedTwice .null .null (Landmark.ofString origin) segment))
  else if isZTwice then do
    let ya ← parseAxis x Side.first
    let za ← parseAxis z Side.all
    .ok (some (Frame.fromZCrossedTwice ya za (Landmark.ofString origin) segment))
  else .ok none

/-- `Frame.is_one_axis_crossed_twice` (frame_reader.py lines 162-168). -/
def Frame.isOneAxisCrossedTwice (x y z : String) : Bool :=
  (substrContains z "x^" && substrContains y "^x")
    || (substrContains x "y^" && substrContains z "^y")
    || (substrContains y "z^" && substrContains x "^z")

/-- `Frame.from_xyz_string` (frame_reader.py lines 154-160): dispatches to the
twice-crossed or the once-crossed construction. -/
def Frame.fromXyzString (x y z origin : String) (segment : Segment) :
    Except PyError (Option Frame) :=
  if Frame.isOneAxisCrossedTwice x y z then
    Frame.fromTwiceCrossed x y z origin segment
  else
    (Frame.fromOnceCrossed x y z origin segment).map some

/-- `Frame.landmarks` (frame_reader.py lines 170-172): ordered deduplication
of the three axes' landmarks; `none` when an axis holds `None`. -/
def Frame.frameLandmarks (f : Frame) : Option (List Landmark) := do
  let lx ← f.x_axis.landmarksOpt
  let ly ← f.y_axis.landmarksOpt
  let lz ← f.z_axis.landmarksOpt
  pure ((lx ++ ly ++ lz).eraseDups)

/-- Equality of two landmark lists as sets (Python compares
`set(...) == set(...)`). -/
def listSetEq (a b : List Landmark) : Bool :=
  a.all (b.contains ·) && b.all (a.contains ·)

/-- `Frame.has_isb_landmarks` (frame_reader.py lines 184-193): the frame's
landmark set equals the segment's ISB landmark set. -/
def Frame.hasIsbLandmarks (T : BiomechTables) (f : Frame) : Bool :=
  match f.frameLandmarks with
  | some ls => listSetEq ls (T.isbLandmarks f.segment)
  | none => false

/-- `Frame.is_origin_isb` (frame_reader.py lines 195-204): the origin equals
the segment's ISB origin. -/
def Frame.isOriginIsb (T : BiomechTables) (f : Frame) : Bool :=
  decide (f.origin = T.isbOrigin f.segment)

/-- `Frame.is_x_axis_postero_anterior` (frame_reader.py lines 206-208). -/
def Frame.isXAxisPosteroAnterior (T : BiomechTables) (f : Frame) : Bool :=
  decide (principalDirection T f.x_axis = some CartesianAxis.plusX)

/-- `Frame.is_y_axis_supero_inferior` (frame_reader.py lines 210-212). -/
def Frame.isYAxisSuperoInferior (T : BiomechTables) (f : Frame) : Bool :=
  decide (principalDirection T f.y_axis = some CartesianAxis.plusY)

/-- `Frame.is_z_axis_medio_lateral` (frame_reader.py lines 214-216). -/
def Frame.isZAxisMedioLateral (T : BiomechTables) (f : Frame) : Bool :=
  decide (principalDirection T f.z_axis = some CartesianAxis.plusZ)

/-- `Frame.is_isb` (frame_reader.py lines 174-182): the conjunction of the
landmark, three axis-direction and origin checks. -/
def Frame.isIsb (T : BiomechTables) (f : Frame) : Bool :=
  f.hasIsbLandmarks T
    && f.isXAxisPosteroAnterior T
    && f.isYAxisSuperoInferior T
    && f.isZAxisMedioLateral T
    && f.isOriginIsb T

/-- `Except.isOk` for the frame layer's results. -/
def exceptIsOk {ε α : Type} : Except ε α → Bool
  | .ok _ => true
  | .error _ => false

/-- Whether a frame-layer result is the `GeometryError` the spec posits. -/
def isGeometryError {α : Type} : Except PyError α → Bool
  | .error PyError.geometryError => true
  | _ => false

deriving instance DecidableEq for Except

/-- A concrete instantiation of the reference tables, used only to evaluate
the embedded functions at closed inputs. -/
def sampleTables : BiomechTables where
  getC l :=
    if l.name = "AA" then (1, 0, 0)
    else if l.name = "TS" then (0, 1, 0)
    else if l.name = "AI" then (3, 1, 2)
    else (0, 0, 1)
  isbLandmarks _ := [Landmark.ofString "AA", Landmark.ofString "TS", Landmark.ofString "AI"]
  isbOrigin _ := Landmark.ofString "AA"

/-- A baseline row: both coordinate systems fully ISB, no correction declared,
canonical Euler sequence, every collaborator outcome benign. -/
def baseRow : RowState where
  parentBsys := ⟨true, true, true⟩
  childBsys := ⟨true, true, true⟩
  parentSegment := Segment.thorax
  childSegment := Segment.clavicle
  parentCorrection := none
  childCorrection := none
  eulerSequence := some "yxz"
  isbSequence := "yxz"
  jointSequenceIsb := true
  jointConvertibleThroughFactors := false
  sameOrientation := true
  matrixConvertibleThroughFactors := false
  matrixSignFactors := (1, 1, 1)

/-- A row on the to-ISB path whose same-orientation precondition fails: the
parent is not ISB-oriented and `check_same_orientation` reported `False`. -/
def rowSameOrientationFails : RowState :=
  { baseRow with parentBsys := ⟨false, false, false⟩, sameOrientation := false }

/-- The row of the child-scapula Kolz slip: the child is a scapula,
ISB-oriented, origin not on an ISB axis, and no correction is declared for
it. -/
def kolzBugRow : RowState :=
  { baseRow with childBsys := ⟨true, false, false⟩, childSegment := Segment.scapula }

/-- Both sides fully ISB but each declaring a (forbidden) correction, so the
no-correction checks fail and the combined rotation verdict is `False`. -/
def bothIsbWithCorrectionsRow : RowState :=
  { baseRow with
      parentCorrection := some [Correction.toIsbRotation]
      childCorrection := some [Correction.toIsbRotation] }

/-- The state `check_segments_correction_validity` leaves on
`bothIsbWithCorrectionsRow`. -/
def bothIsbWithCorrectionsMid : RowState :=
  (checkSegmentsCorrectionValidity bothIsbWithCorrectionsRow).1

/-- The state `set_rotation_correction_callback` then produces: the combined
`False` verdict has been overwritten with `True`. -/
def bothIsbWithCorrectionsOut : RowState :=
  { bothIsbWithCorrectionsMid with
      usableRotationData := some true
      rotationCorrectionCallback := some (RotationCallback.fromTuple (1, 1, 1)) }

/-- A row taking the sequence-rebuild branch of the dispatcher (both sides
ISB-oriented, declared sequence not the canonical one). -/
def sequenceRebuildRow : RowState :=
  { baseRow with eulerSequence := some "zxy", jointSequenceIsb := false }

/-- The state the dispatcher produces on `sequenceRebuildRow`. -/
def sequenceRebuildOut : RowState :=
  { sequenceRebuildRow with
      usableRotationData := some true
      rotationCorrectionCallback :=
        some (RotationCallback.fromSequence sequenceRebuildRow.eulerSequence
          sequenceRebuildRow.isbSequence) }

/-- On every non-raising path of `set_rotation_correction_callback`
(row_data.py lines 437-505) the method sets `usable_rotation_data` to `True`,
stores some callback, and leaves every other field of the object exactly as it
was. -/
theorem setRotationCorrectionCallback_ok_effect (rd rd' : RowState)
    (h : setRotationCorrectionCallback rd = Except.ok rd') :
    rd'.usableRotationData = some true ∧
    rd'.rotationCorrectionCallback.isSome = true ∧
    rd'.parentBsys = rd.parentBsys ∧
    rd'.childBsys = rd.childBsys ∧
    rd'.parentSegment = rd.parentSegment ∧
    rd'.childSegment = rd.childSegment ∧
    rd'.parentCorrection = rd.parentCorrection ∧
    rd'.childCorrection = rd.childCorrection ∧
    rd'.eulerSequence = rd.eulerSequence ∧
    rd'.isbSequence = rd.isbSequence ∧
    rd'.jointSequenceIsb = rd.jointSequenceIsb ∧
    rd'.jointConvertibleThroughFactors = rd.jointConvertibleThroughFactors ∧
    rd'.sameOrientation = rd.sameOrientation ∧
    rd'.matrixConvertibleThroughFactors = rd.matrixConvertibleThroughFactors ∧
    rd'.matrixSignFactors = rd.matrixSignFactors ∧
    rd'.hasRotationData = rd.hasRotationData ∧
    rd'.hasTranslationData = rd.hasTranslationData ∧
    rd'.parentUsableRot = rd.parentUsableRot ∧
    rd'.childUsableRot = rd.childUsableRot ∧
    rd'.parentUsableTrans = rd.parentUsableTrans ∧
    rd'.childUsableTrans = rd.childUsableTrans ∧
    rd'.parentDefinitionRisk = rd.parentDefinitionRisk ∧
    rd'.childDefinitionRisk = rd.childDefinitionRisk ∧
    rd'.usableTranslationData = rd.usableTranslationData ∧
    rd'.translationCorrectionCallback = rd.translationCorrectionCallback := by
  simp only [setRotationCorrectionCallback] at h
  split at h
  · split at h
    · injection h with h
      subst h
      simp
    · injection h with h
      subst h
      simp
  · split at h
    · split at h
      · exact Except.noConfusion h
      · split at h
        · injection h with h
          subst h
          simp
        · injection h with h
          subst h
          simp
    · exact Except.noConfusion h

/-- After the eight classification blocks of
`check_segments_correction_validity` both per-side translation flags are
`False`: each side falls in exactly one of the four (orientation × origin)
cells and every cell's block writes `False` into that side's translation
flag, overwriting the `True` the both-ISB block may have written. -/
theorem checkSegmentsBlocks_translation_false (rd : RowState) :
    (checkSegmentsCorrectionBlocks rd).parentUsableTrans = some false ∧
    (checkSegmentsCorrectionBlocks rd).childUsableTrans = some false := by
  obtain ⟨⟨po, pi, pa⟩, ⟨co, ci, ca⟩, pseg, cseg, pc, cc, es, isq, jsi, jcf, so, mcf,
    msf, hr, ht, pur, cur, put, cut, pdr, cdr, urd, utd, rcc, tcc⟩ := rd
  cases po <;> cases pi <;> cases pa <;> cases co <;> cases ci <;> cases ca <;>
    exact ⟨rfl, rfl⟩

/-- C1: whenever at least one of the parent or child coordinate systems is
not ISB-oriented and the same-orientation check fails,
`set_rotation_correction_callback` raises the explicit `NotImplementedError`
of row_data.py line 463 (the `UnsupportedConversion` failure mode) and the
object it leaves behind stores no conversion callback — so no path returns or
stores a callback that would silently produce an angle. -/
theorem toIsbMismatchedOrientationRaises (rd : RowState)
    (h : rd.parentBsys.isbOriented = false ∨ rd.childBsys.isbOriented = false)
    (hso : rd.sameOrientation = false) :
    setRotationCorrectionCallback rd =
      Except.error (RowError.notImplementedSameOrientation,
        { rd with
            usableRotationData := some false
            rotationCorrectionCallback := none }) ∧
    ({ rd with
        usableRotationData := some false
        rotationCorrectionCallback := none } : RowState).rotationCorrectionCallback
      = none := by
  refine ⟨?_, rfl⟩
  simp only [setRotationCorrectionCallback]
  rcases h with h | h <;> simp [h, hso]

/-- Witness for C1 at a concrete row whose parent is not ISB-oriented and
whose same-orientation check failed. -/
theorem toIsbMismatchedOrientationRaisesWitness :
    setRotationCorrectionCallback rowSameOrientationFails =
      Except.error (RowError.notImplementedSameOrientation,
        { rowSameOrientationFails with
            usableRotationData := some false
            rotationCorrectionCallback := none }) := by
  have h := toIsbMismatchedOrientationRaises rowSameOrientationFails
    (Or.inl (by decide)) (by decide)
  exact h.1

/-- C6: when both coordinate systems are ISB-oriented and the joint's declared
Euler sequence is already the canonical ISB sequence, the dispatcher stores
the sign-factor callback with factors `(1,1,1)` (row_data.py lines 444-447),
and applying those factors to any angle triple returns the triple
unchanged. -/
theorem bothIsbCanonicalSequenceYieldsIdentity (rd : RowState)
    (hp : rd.parentBsys.isbOriented = true)
    (hc : rd.childBsys.isbOriented = true)
    (hs : rd.jointSequenceIsb = true) :
    setRotationCorrectionCallback rd =
      Except.ok { rd with
        usableRotationData := some true
        rotationCorrectionCallback := some (RotationCallback.fromTuple (1, 1, 1)) } ∧
    ∀ angles : ℚ × ℚ × ℚ, applySignFactors (1, 1, 1) angles = angles := by
  constructor
  · simp only [setRotationCorrectionCallback]
    simp [hp, hc, hs]
  · rintro ⟨a, b, c⟩
    simp [applySignFactors]

/-- Witness for C6 at the baseline fully-ISB row and the angle triple
`(2, 3, 5)`. -/
theorem bothIsbCanonicalSequenceYieldsIdentityWitness :
    setRotationCorrectionCallback baseRow =
      Except.ok { baseRow with
        usableRotationData := some true
        rotationCorrectionCallback := some (RotationCallback.fromTuple (1, 1, 1)) } ∧
    applySignFactors (1, 1, 1) (2, 3, 5) = (2, 3, 5) := by
  have h := bothIsbCanonicalSequenceYieldsIdentity baseRow (by decide) (by decide) (by decide)
  exact ⟨h.1, h.2 (2, 3, 5)⟩

/-- C10: a non-raising run of `set_rotation_correction_callback` changes only
`usable_rotation_data` and `rotation_correction_callback`; the rotation
verdict is set to `True` whatever its prior value (so even a `False` left by
the correction-consistency check is overwritten), a callback is stored, and
every other field — per-side usability flags, translation flag and callback,
definition-risk flags, joint data and both coordinate systems — is
unchanged. -/
theorem rotationCallbackStageFrameEffect (rd rd' : RowState)
    (h : setRotationCorrectionCallback rd = Except.ok rd') :
    rd'.usableRotationData = some true ∧
    rd'.rotationCorrectionCallback.isSome = true ∧
    rd'.parentBsys = rd.parentBsys ∧
    rd'.childBsys = rd.childBsys ∧
    rd'.parentSegment = rd.parentSegment ∧
    rd'.childSegment = rd.childSegment ∧
    rd'.parentCorrection = rd.parentCorrection ∧
    rd'.childCorrection = rd.childCorrection ∧
    rd'.eulerSequence = rd.eulerSequence ∧
    rd'.isbSequence = rd.isbSequence ∧
    rd'.jointSequenceIsb = rd.jointSequenceIsb ∧
    rd'.jointConvertibleThroughFactors = rd.jointConvertibleThroughFactors ∧
    rd'.sameOrientation = rd.sameOrientation ∧
    rd'.matrixConvertibleThroughFactors = rd.matrixConvertibleThroughFactors ∧
    rd'.matrixSignFactors = rd.matrixSignFactors ∧
    rd'.hasRotationData = rd.hasRotationData ∧
    rd'.hasTranslationData = rd.hasTranslationData ∧
    rd'.parentUsableRot = rd.parentUsableRot ∧
    rd'.childUsableRot = rd.childUsableRot ∧
    rd'.parentUsableTrans = rd.parentUsableTrans ∧
    rd'.childUsableTrans = rd.childUsableTrans ∧
    rd'.parentDefinitionRisk = rd.parentDefinitionRisk ∧
    rd'.childDefinitionRisk = rd.childDefinitionRisk ∧
    rd'.usableTranslationData = rd.usableTranslationData ∧
    rd'.translationCorrectionCallback = rd.translationCorrectionCallback :=
  setRotationCorrectionCallback_ok_effect rd rd' h

/-- Witness for C10: the sequence-rebuild row runs the dispatcher without
raising and its rotation verdict is `True`. -/
theorem rotationCallbackStageFrameEffectWitness :
    sequenceRebuildOut.usableRotationData = some true := by
  have h := rotationCallbackStageFrameEffect sequenceRebuildRow sequenceRebuildOut (by decide)
  exact h.1

/-- C4 (amended): when `check_segments_correction_validity` returns, the
combined verdicts equal the Python `and` of the per-side flags (child operand
first, as at row_data.py lines 423-429); `set_rotation_correction_callback`
leaves `usable_translation_data` untouched but overwrites
`usable_rotation_data` with `True` on every non-raising path, so the AND is
final only for translation. -/
theorem usabilityCombinationThenRotationOverwrite (rd : RowState) :
    ((checkSegmentsCorrectionValidity rd).1.usableRotationData =
      pyAnd (checkSegmentsCorrectionValidity rd).1.childUsableRot
        (checkSegmentsCorrectionValidity rd).1.parentUsableRot) ∧
    ((checkSegmentsCorrectionValidity rd).1.usableTranslationData =
      pyAnd (checkSegmentsCorrectionValidity rd).1.childUsableTrans
        (checkSegmentsCorrectionValidity rd).1.parentUsableTrans) ∧
    ∀ rd2 : RowState, setRotationCorrectionCallback rd = Except.ok rd2 →
      rd2.usableTranslationData = rd.usableTranslationData ∧
      rd2.usableRotationData = some true := by
  refine ⟨rfl, rfl, ?_⟩
  intro rd2 h
  obtain ⟨h1, _, _, _, _, _, _, _, _, _, _, _, _, _, _, _, _, _, _, _, _, _, _,
    h24, _⟩ := setRotationCorrectionCallback_ok_effect rd rd2 h
  exact ⟨h24, h1⟩

/-- Counterexample to C4 as stated: on the row whose sides are fully ISB but
wrongly declare corrections, the validity check combines the per-side flags
into `usable_rotation_data = False`, yet the later callback-resolution stage
returns without raising and leaves `usable_rotation_data = True` — a later
pipeline stage does change the AND. -/
theorem rotationVerdictOverwrittenCounterexample :
    bothIsbWithCorrectionsMid.usableRotationData = some false ∧
    setRotationCorrectionCallback bothIsbWithCorrectionsMid =
      Except.ok bothIsbWithCorrectionsOut ∧
    bothIsbWithCorrectionsOut.usableRotationData = some true := by decide

/-- C2: after `check_segments_correction_validity`, `usable_translation_data`
can be `True` only when both coordinate systems are fully ISB, and any origin
deviation on either side forces it to `False` regardless of the rotation
outcome (in fact every side's translation flag is overwritten to `False` by
the per-cell blocks, so the combined verdict is always `False`). -/
theorem translationUsableOnlyWhenBothFullyIsb (rd : RowState) :
    ((checkSegmentsCorrectionValidity rd).1.usableTranslationData = some true →
      rd.parentBsys.isIsb = true ∧ rd.childBsys.isIsb = true) ∧
    ((rd.parentBsys.originIsb = false ∨ rd.childBsys.originIsb = false) →
      (checkSegmentsCorrectionValidity rd).1.usableTranslationData = some false) := by
  have hblocks := checkSegmentsBlocks_translation_false rd
  have hf : (checkSegmentsCorrectionValidity rd).1.usableTranslationData = some false := by
    show pyAnd (checkSegmentsCorrectionBlocks rd).childUsableTrans
        (checkSegmentsCorrectionBlocks rd).parentUsableTrans = some false
    rw [hblocks.2]
    rfl
  constructor
  · intro htrue
    rw [hf] at htrue
    simp at htrue
  · intro _
    exact hf

/-- Witness for C2 at a concrete row whose child origin deviates from the ISB
origin: the translation verdict is `False` there. -/
theorem translationUsableOnlyWhenBothFullyIsbWitness :
    (checkSegmentsCorrectionValidity kolzBugRow).1.usableTranslationData = some false := by
  have h := translationUsableOnlyWhenBothFullyIsb kolzBugRow
  exact h.2 (Or.inr (by decide))

/-- C3: the child-scapula rule is broken by the assignment slip of
row_data.py line 375. On a row whose child is a scapula, ISB-oriented, with
origin not on an ISB axis and no Kolz correction declared, the required
Kolz-check failure is stored into `parent_output` while the child's rotation
flag receives the stale `child_output`, so the child side — and even the
combined rotation verdict — stays `True` instead of being marked unusable. -/
theorem childScapulaKolzCheckDiscarded :
    kolzBugRow.childSegment = Segment.scapula ∧
    kolzBugRow.childBsys.isbOriented = true ∧
    kolzBugRow.childBsys.originOnIsbAxis = false ∧
    hasKolzCorrection kolzBugRow.childCorrection = false ∧
    (checkSegmentsCorrectionValidity kolzBugRow).1.childUsableRot = some true ∧
    (checkSegmentsCorrectionValidity kolzBugRow).1.usableRotationData = some true := by
  decide

/-- C5: `Frame.is_isb` is exactly the conjunction of the five independently
queryable components (frame_reader.py lines 174-182), and holds precisely when
the frame's landmark set matches the segment's ISB set, each axis's principal
direction is the canonical `+X`/`+Y`/`+Z`, and the origin equals the segment's
ISB origin. -/
theorem frameIsIsbFiveComponents (T : BiomechTables) (f : Frame) :
    (Frame.isIsb T f =
      (f.hasIsbLandmarks T && f.isXAxisPosteroAnterior T && f.isYAxisSuperoInferior T
        && f.isZAxisMedioLateral T && f.isOriginIsb T)) ∧
    (Frame.isIsb T f = true ↔
      (f.hasIsbLandmarks T = true ∧
        principalDirection T f.x_axis = some CartesianAxis.plusX ∧
        principalDirection T f.y_axis = some CartesianAxis.plusY ∧
        principalDirection T f.z_axis = some CartesianAxis.plusZ ∧
        f.origin = T.isbOrigin f.segment)) := by
  refine ⟨rfl, ?_⟩
  simp [Frame.isIsb, Frame.isXAxisPosteroAnterior, Frame.isYAxisSuperoInferior,
    Frame.isZAxisMedioLateral, Frame.isOriginIsb, Bool.and_eq_true, decide_eq_true_eq,
    and_assoc]

/-- C7 (amended): `compute_default_vector` contains no degeneracy check — no
input, degenerate or not, ever produces the `GeometryError` the specification
posits; the division by the norm is performed unconditionally. -/
theorem computeDefaultVectorNeverGeometryError (T : BiomechTables) (v : AxisVec) :
    isGeometryError (computeDefaultVector T v) = false := by
  induction v with
  | startEnd s e => rfl
  | null => rfl
  | crossed a b iha ihb =>
      simp only [computeDefaultVector]
      cases ha : computeDefaultVector T a with
      | error ea =>
          rw [ha] at iha
          cases ea <;> simp_all [isGeometryError]
      | ok va =>
          cases hb : computeDefaultVector T b with
          | error eb =>
              rw [hb] at ihb
              cases eb <;> simp_all [isGeometryError]
          | ok vb => simp [isGeometryError]

/-- Counterexample to C7 as stated: a degenerate start/end vector (identical
landmarks) and a degenerate cross product (parallel operands) both reach the
norm division with the zero vector and still return a value — no
`GeometryError` is raised. -/
theorem degenerateVectorsReturnValuesNotErrors :
    exceptIsOk (computeDefaultVector sampleTables
      (AxisVec.startEnd (Landmark.ofString "AA") (Landmark.ofString "AA"))) = true ∧
    (computeDefaultVector sampleTables
      (AxisVec.startEnd (Landmark.ofString "AA") (Landmark.ofString "AA"))).toOption.map
        normSq = some 0 ∧
    (computeDefaultVector sampleTables
      (AxisVec.crossed (AxisVec.startEnd (Landmark.ofString "TS") (Landmark.ofString "AA"))
        (AxisVec.startEnd (Landmark.ofString "TS") (Landmark.ofString "AA")))).toOption.map
        normSq = some 0 := by
  refine ⟨rfl, ?_, ?_⟩ <;>
    simp [computeDefaultVector, sampleTables, Landmark.ofString, vsub, vcross,
      normSq, Except.toOption]

/-- C8: an axis-token triple matching neither the once-crossed literal
patterns (`x == "y^z"`, `y == "z^x"`, `z == "x^y"`) nor any of the three
twice-crossed substring patterns makes `Frame.from_xyz_string` raise the
invalid-axis-combination `ValueError` (frame_reader.py line 125) instead of
returning a frame. -/
theorem unmatchedAxisPatternRaisesFormatError (x y z origin : String) (segment : Segment)
    (hx : x ≠ "y^z") (hy : y ≠ "z^x") (hz : z ≠ "x^y")
    (htw : Frame.isOneAxisCrossedTwice x y z = false) :
    Frame.fromXyzString x y z origin segment =
      Except.error PyError.invalidAxisCombination := by
  simp [Frame.fromXyzString, htw, Frame.fromOnceCrossed, hx, hy, hz, Except.map]

/-- Witness for C8 at the concrete unmatched triple `("a", "b", "c")`. -/
theorem unmatchedAxisPatternRaisesFormatErrorWitness :
    Frame.fromXyzString "a" "b" "c" "o" Segment.thorax =
      Except.error PyError.invalidAxisCombination := by
  have h := unmatchedAxisPatternRaisesFormatError "a" "b" "c" "o" Segment.thorax
    (by decide) (by decide) (by decide) (by decide)
  exact h

/-- Counterexample to C9 as stated: the triple `("y^z", "z^x", "x^y")`
satisfies the y-axis-crossed-twice substring pattern (`"y^"` in the x token,
`"^y"` in the z token), yet `Frame.from_twice_crossed` does not invoke
`from_y_crossed_twice` with `None` placeholders — the x-axis pattern is
checked first, its branch parses the tokens and raises the invalid-format
`ValueError`. -/
theorem yPatternPreemptedByXPattern :
    substrContains "y^z" "y^" = true ∧ substrContains "x^y" "^y" = true ∧
    Frame.fromTwiceCrossed "y^z" "z^x" "x^y" "o" Segment.scapula =
      Except.error PyError.invalidInputFormat := by
  decide

/-- C9 (amended): whenever the y-axis-crossed-twice substring pattern holds
and the x-axis pattern (checked first) does not, `Frame.from_twice_crossed`
invokes `from_y_crossed_twice` with `None` for both axis arguments: it parses
no axis token, raises nothing, and returns a frame whose y axis is `None` and
whose x and z axes are cross products built on `None` placeholders. -/
theorem yCrossedTwiceBuildsNullAxes (x y z origin : String) (segment : Segment)
    (hy1 : substrContains x "y^" = true) (hy2 : substrContains z "^y" = true)
    (hxp : (substrContains z "x^" && substrContains y "^x") = false) :
    Frame.fromTwiceCrossed x y z origin segment =
      Except.ok (some
        { x_axis := AxisVec.crossed AxisVec.null (AxisVec.crossed AxisVec.null AxisVec.null)
          y_axis := AxisVec.null
          z_axis := AxisVec.crossed AxisVec.null AxisVec.null
          origin := Landmark.ofString origin
          segment := segment }) := by
  simp [Frame.fromTwiceCrossed, hy1, hy2, hxp, Frame.fromYCrossedTwice, Frame.fromYz]

/-- Witness for C9 (amended) at the concrete triple `("y^w", "b", "w^y")`,
which matches only the y pattern. -/
theorem yCrossedTwiceBuildsNullAxesWitness :
    Frame.fromTwiceCrossed "y^w" "b" "w^y" "o" Segment.scapula =
      Except.ok (some
        { x_axis := AxisVec.crossed AxisVec.null (AxisVec.crossed AxisVec.null AxisVec.null)
          y_axis := AxisVec.null
          z_axis := AxisVec.crossed AxisVec.null AxisVec.null
          origin := Landmark.ofString "o"
          segment := Segment.scapula }) := by
  have h := yCrossedTwiceBuildsNullAxes "y^w" "b" "w^y" "o" Segment.scapula
    (by decide) (by decide) (by decide)
  exact h
